import Mathlib

/-!
Shallow embedding of the verifiable-voting demo (`src/app.py` and
`src/database_handler.py`).

The remote Supabase store is modelled as an in-memory database value
(`DBState`): each table is a list of rows, an insert appends, a select
is a filter over the rows, and an update maps over them.  Column-keyed
filters (`.eq(col, v)` in the source) are modelled through `getCol`,
which maps a column-name string to the corresponding field of a row
exactly as the rows are written by the insert calls in
`database_handler.py`.  A filter naming a column that the inserted
rows do not carry therefore matches nothing; this is faithful to the
source: `retrieve_vote_data` filters votes on the column "CNIC" while
`store_vote_data` writes the key "cnic", and `retrieve_election_data`
filters the elections table on "election_id" while every insert,
update and read of elections elsewhere keys them by "id".

`created_at` is the server-assigned creation stamp; the model keeps a
counter in the state and assigns it on insert, strictly increasing.
-/

/-- A cell value of a database row. -/
inductive Value where
  | str (s : String)
  | int (n : Int)
  | bool (b : Bool)
  | null
deriving DecidableEq, Repr

/-- A row of the `elections` table, with the columns written by
`store_election_data` plus the server-assigned `created_at`. -/
structure Election where
  id : Int
  num_candidates : Int
  start_time : String
  end_time : String
  ongoing : Bool
  results_visibility : Bool
  encrypted_sum : Option String
  combined_randomness : Option String
  decrypted_tally : Option String
  created_at : Nat
deriving DecidableEq, Repr

/-- Column lookup on an election row, by the column names the source
writes in `store_election_data` (the row is keyed by "id"). -/
def Election.getCol (e : Election) (col : String) : Option Value :=
  if col = "id" then some (.int e.id)
  else if col = "num_candidates" then some (.int e.num_candidates)
  else if col = "start_time" then some (.str e.start_time)
  else if col = "end_time" then some (.str e.end_time)
  else if col = "ongoing" then some (.bool e.ongoing)
  else if col = "results_visibility" then some (.bool e.results_visibility)
  else if col = "created_at" then some (.int e.created_at)
  else none

/-- A row of the `candidates` table, as written by `store_candidate_data`. -/
structure Candidate where
  election_id : Int
  name : String
  cand_id : Option String
  symbol : String
deriving DecidableEq, Repr

/-- A row of the `votes` table, with the keys written by
`store_vote_data` (note the key is lower-case "cnic"). -/
structure Vote where
  cnic : String
  ballot_id : Int
  election_id : Int
  encrypted_vote : String
  vote_hash : String
  randomness : String
  time : String
deriving DecidableEq, Repr

/-- Column lookup on a vote row, by the keys `store_vote_data` writes.
The column "CNIC" (upper case) that `retrieve_vote_data` filters on is
not among them. -/
def Vote.getCol (v : Vote) (col : String) : Option Value :=
  if col = "cnic" then some (.str v.cnic)
  else if col = "ballot_id" then some (.int v.ballot_id)
  else if col = "election_id" then some (.int v.election_id)
  else if col = "encrypted_vote" then some (.str v.encrypted_vote)
  else if col = "vote_hash" then some (.str v.vote_hash)
  else if col = "randomness" then some (.str v.randomness)
  else if col = "time" then some (.str v.time)
  else none

/-- The database state: the three tables the core logic touches, plus
the server counter that assigns `created_at` stamps. -/
structure DBState where
  elections : List Election
  candidates : List Candidate
  votes : List Vote
  nextCreated : Nat
deriving DecidableEq, Repr

/-- The empty store. -/
def initState : DBState := ⟨[], [], [], 0⟩

/-- Python truthiness of an optional string form field: `None` and the
empty string are falsy (the `if candidate_name and candidate_symbol`
test in `start_election`). -/
def pyTruthy : Option String → Bool
  | none => false
  | some s => s != ""

/-- A `datetime` value as far as the embedded code inspects it:
whether `tzinfo` is set, and the `isoformat()` rendering. -/
structure PyDatetime where
  tzinfo : Option String
  iso : String
deriving DecidableEq, Repr

/-- `.isoformat()` of the modelled datetime. -/
def PyDatetime.isoformat (t : PyDatetime) : String := t.iso

/-- The error dictionary `retrieve_last_election` and `end_election`
return when no elections exist. -/
structure ErrorMarker where
  status : String
  message : String
deriving DecidableEq, Repr

/-- `.order(key, desc=True)`: insert one element into a list sorted in
descending key order. -/
def insertDescBy {α β : Type} [LinearOrder β] (key : α → β) (x : α) : List α → List α
  | [] => [x]
  | y :: ys => if key y ≤ key x then x :: y :: ys else y :: insertDescBy key x ys

/-- `.order(key, desc=True)` over a whole table. -/
def orderDescBy {α β : Type} [LinearOrder β] (key : α → β) (l : List α) : List α :=
  l.foldr (insertDescBy key) []

theorem insertDescBy_ne_nil {α β : Type} [LinearOrder β] (key : α → β) (x : α)
    (l : List α) : insertDescBy key x l ≠ [] := by
  cases l with
  | nil => simp [insertDescBy]
  | cons y ys =>
    simp only [insertDescBy]
    split <;> simp

theorem orderDescBy_eq_nil_iff {α β : Type} [LinearOrder β] (key : α → β)
    (l : List α) : orderDescBy key l = [] ↔ l = [] := by
  cases l with
  | nil => simp [orderDescBy]
  | cons x xs =>
    simp only [orderDescBy, List.foldr]
    constructor
    · intro h
      exact absurd h (insertDescBy_ne_nil key x _)
    · intro h
      exact absurd h (by simp)

theorem mem_insertDescBy {α β : Type} [LinearOrder β] (key : α → β) (x : α)
    (l : List α) (a : α) : a ∈ insertDescBy key x l ↔ a = x ∨ a ∈ l := by
  induction l with
  | nil => simp [insertDescBy]
  | cons y ys ih =>
    simp only [insertDescBy]
    split
    · simp [or_comm, or_assoc, or_left_comm]
    · simp only [List.mem_cons, ih]
      tauto

/-- The head of a descending sort is a maximal element of the list. -/
theorem orderDescBy_head_max {α β : Type} [LinearOrder β] (key : α → β) :
    ∀ l : List α, l ≠ [] →
      ∃ m, (orderDescBy key l).head? = some m ∧ m ∈ l ∧ ∀ a ∈ l, key a ≤ key m := by
  intro l
  induction l with
  | nil => intro h; exact absurd rfl h
  | cons x xs ih =>
    intro _
    by_cases hxs : xs = []
    · subst hxs
      exact ⟨x, by simp [orderDescBy, insertDescBy], by simp, by simp⟩
    · obtain ⟨m, hm1, hm2, hm3⟩ := ih hxs
      cases hOD : orderDescBy key xs with
      | nil =>
        rw [hOD] at hm1
        simp at hm1
      | cons a t =>
        rw [hOD] at hm1
        simp only [List.head?] at hm1
        have ha : a = m := by injection hm1
        subst ha
        have hfold : orderDescBy key (x :: xs) = insertDescBy key x (a :: t) := by
          rw [show orderDescBy key (x :: xs) = insertDescBy key x (orderDescBy key xs) from rfl,
            hOD]
        rw [hfold]
        simp only [insertDescBy]
        by_cases hle : key a ≤ key x
        · refine ⟨x, by simp [hle], by simp, ?_⟩
          intro b hb
          rcases List.mem_cons.mp hb with hb | hb
          · subst hb; exact le_refl _
          · exact le_trans (hm3 b hb) hle
        · refine ⟨a, by simp [hle], List.mem_cons_of_mem x hm2, ?_⟩
          intro b hb
          rcases List.mem_cons.mp hb with hb | hb
          · subst hb; exact le_of_not_le hle
          · exact hm3 b hb

/-! ## Operations of `database_handler.py` -/

/-- `store_vote_data`: rejects a timestamp whose `tzinfo` is absent
(the `if not timestamp.tzinfo: raise ValueError(...)` guard),
otherwise inserts the vote row with the keys the source writes — in
particular the voter key is stored under "cnic".  Returns the new
votes table on success. -/
def store_vote_data (cnic : String) (ballot_id election_id : Int)
    (encryption hash_value random_factor : String) (timestamp : PyDatetime)
    (votes : List Vote) : Except String (List Vote) :=
  match timestamp.tzinfo with
  | none => .error "vote_time must include timezone information."
  | some _ =>
    let data : Vote :=
      { cnic := cnic, ballot_id := ballot_id, election_id := election_id,
        encrypted_vote := encryption, vote_hash := hash_value,
        randomness := random_factor, time := timestamp.isoformat }
    .ok (votes ++ [data])

/-- `retrieve_vote_data`: select votes where the column "CNIC" equals
the given cnic, first row or `None`.  The filter takes no election id,
and the column it names is upper-case while `store_vote_data` writes
"cnic". -/
def retrieve_vote_data (cnic : String) (votes : List Vote) : Option Vote :=
  (votes.filter (fun v => decide (v.getCol "CNIC" = some (.str cnic)))).head?

/-- `store_election_data`: insert one election row (keyed "id"); the
response data is the inserted row.  `created_at` is assigned by the
store counter. -/
def store_election_data (election_id num_candidates : Int)
    (start_time end_time : String) (status results_visibility : Bool)
    (encrypted_sum encrypted_randomness decrypted_tally : Option String)
    (s : DBState) : DBState × List Election :=
  let row : Election :=
    { id := election_id, num_candidates := num_candidates,
      start_time := start_time, end_time := end_time,
      ongoing := status, results_visibility := results_visibility,
      encrypted_sum := encrypted_sum, combined_randomness := encrypted_randomness,
      decrypted_tally := decrypted_tally, created_at := s.nextCreated }
  ({ s with elections := s.elections ++ [row], nextCreated := s.nextCreated + 1 }, [row])

/-- A candidate dictionary as built by the loop in `start_election`. -/
structure CandDict where
  name : String
  id : Option String
  symbol : String
deriving DecidableEq, Repr

/-- `store_candidate_data`: batch-insert one candidate row per entry. -/
def store_candidate_data (election_id : Int) (candidates : List CandDict)
    (s : DBState) : DBState × List Candidate :=
  let data := candidates.map (fun c =>
    ({ election_id := election_id, name := c.name, cand_id := c.id,
       symbol := c.symbol } : Candidate))
  ({ s with candidates := s.candidates ++ data }, data)

/-- `get_votes_by_election`: all vote rows whose "election_id" column
equals the given id. -/
def get_votes_by_election (election_id : Int) (s : DBState) : List Vote :=
  s.votes.filter (fun v => decide (v.getCol "election_id" = some (.int election_id)))

/-- The tri-state outcome dictionary of `update_result_visibility`. -/
inductive VisStatus where
  | success
  | error
  | skipped
deriving DecidableEq, Repr

/-- The `{"status": ..., "message": ...}` dictionary
`update_result_visibility` returns. -/
structure VisResult where
  status : VisStatus
  message : String
deriving DecidableEq, Repr

/-- `retrieve_election_data`: select elections where the column
"election_id" equals the given id, first row or `None`.  Election rows
are keyed "id" (see `store_election_data`); no election row carries a
column named "election_id". -/
def retrieve_election_data (election_id : Int) (s : DBState) : Option Election :=
  (s.elections.filter (fun e => decide (e.getCol "election_id" = some (.int election_id)))).head?

/-- `update_result_visibility`: look the election up via
`retrieve_election_data`; on a miss return the error outcome; if the
election is not ongoing, set `results_visibility` to true on rows with
matching "id" and return success (the source further branches on the
update response's status code, modelled as the store reporting
success); otherwise return the skipped outcome.  The second parameter
mirrors the unused `status` argument of the source signature. -/
def update_result_visibility (election_id : Int) ( _status : Bool) (s : DBState) :
    VisResult × DBState :=
  match retrieve_election_data election_id s with
  | none =>
    ({ status := .error,
       message := "Election ID " ++ toString election_id ++ " not found" }, s)
  | some election_data =>
    if !election_data.ongoing then
      ({ status := .success,
         message := "Results visibility updated for election ID " ++ toString election_id },
       { s with elections := s.elections.map (fun e =>
           if e.getCol "id" = some (.int election_id)
           then { e with results_visibility := true } else e) })
    else
      ({ status := .skipped,
         message := "Election ID " ++ toString election_id ++
           " is already ongoing; no update made" }, s)

/-- `retrieve_last_election`: order elections by "created_at"
descending, take the first; on an empty table return the explicit
error dictionary. -/
def retrieve_last_election (s : DBState) : ErrorMarker ⊕ Election :=
  match (orderDescBy (fun e => e.created_at) s.elections).head? with
  | none => Sum.inl { status := "error", message := "No elections found" }
  | some e => Sum.inr e

/-- Outcome of `end_election`. -/
inductive EndElectionResult where
  | errorNoElections
  | updated
deriving DecidableEq, Repr

/-- `end_election`: order elections by "id" descending, take the
first; on an empty table return the error dictionary, otherwise set
`ongoing := false` on rows whose "id" column equals that election's
id. -/
def end_election (s : DBState) : EndElectionResult × DBState :=
  match (orderDescBy (fun e => e.id) s.elections).head? with
  | none => (.errorNoElections, s)
  | some last_election =>
    (.updated, { s with elections := s.elections.map (fun e =>
        if e.getCol "id" = some (.int last_election.id)
        then { e with ongoing := false } else e) })

/-- `get_visible_election`: first election row whose
"results_visibility" column is true (no condition on `ongoing`). -/
def get_visible_election (s : DBState) : Option Election :=
  (s.elections.filter (fun e => decide (e.getCol "results_visibility" = some (.bool true)))).head?

/-! ## Request handlers of `app.py` -/

/-- `search_encryptions`: if a visible election exists, expose it
together with its vote rows; otherwise "No visible results", 403. -/
def search_encryptions (s : DBState) : Option (Election × List Vote) :=
  match get_visible_election s with
  | some visible_election =>
    some (visible_election, get_votes_by_election visible_election.id s)
  | none => none

/-- Outcome of the `election_setup` handler. -/
inductive SetupOutcome where
  | conflict
  | setupForm
deriving DecidableEq, Repr

/-- `election_setup`: scan the "ongoing" column of every election; if
any is true, answer "An election is already ongoing!", 403; otherwise
render the setup form. -/
def election_setup (s : DBState) : SetupOutcome :=
  if s.elections.any (fun e => e.ongoing) then .conflict else .setupForm

/-- One triple of form fields `candidate_name_i`, `candidate_id_i`,
`candidate_symbol_i` as read by `request.form.get` (absent fields are
`none`). -/
structure CandidateField where
  candidate_name : Option String
  candidate_id : Option String
  candidate_symbol : Option String
deriving DecidableEq, Repr

/-- The candidate-collecting loop of `start_election`: an entry is
appended exactly when `candidate_name and candidate_symbol` is truthy,
i.e. both are present and non-empty; other entries are dropped. -/
def collectCandidates (fields : List CandidateField) : List CandDict :=
  fields.foldr (fun f acc =>
    if pyTruthy f.candidate_name && pyTruthy f.candidate_symbol then
      { name := f.candidate_name.getD "", id := f.candidate_id,
        symbol := f.candidate_symbol.getD "" } :: acc
    else acc) []

/-- The form data of a `start_election` request.  The form's
`num_candidates` bounds the loop over the candidate fields; it is
modelled as the field list itself, whose length is stored in the
election row. -/
structure StartInput where
  election_id : Int
  fields : List CandidateField
  start_time : String
  end_time : String
deriving DecidableEq, Repr

/-- Outcome of starting an election. -/
inductive StartOutcome where
  | conflict
  | success
  | failure
deriving DecidableEq, Repr

/-- `start_election`: build the candidate list, insert the election
row (`status=True`, `results_visibility=False`, tally fields `None`),
insert the candidate rows, and succeed iff both responses carry
non-empty data (`if response1.data and response2.data`). -/
def start_election (inp : StartInput) (s : DBState) : StartOutcome × DBState :=
  let candidates := collectCandidates inp.fields
  let r1 := store_election_data inp.election_id (Int.ofNat inp.fields.length)
    inp.start_time inp.end_time true false none none none s
  let r2 := store_candidate_data inp.election_id candidates r1.1
  if !r1.2.isEmpty && !r2.2.isEmpty then (.success, r2.1) else (.failure, r2.1)

/-- A `startElection` call as the spec describes it: the
`election_setup` ongoing-check followed, when it passes, by the
`start_election` insert (in the source these are two requests of the
same sequential admin flow; the check lives in `election_setup`). -/
def startElectionFlow (inp : StartInput) (s : DBState) : StartOutcome × DBState :=
  match election_setup s with
  | .conflict => (.conflict, s)
  | .setupForm => start_election inp s

/-- Outcome of the `voter_login` handler. -/
inductive LoginOutcome where
  | receipt (vote_data : Vote)
  | castVoteForm (cnic : String)
  | searchEncryptionsPage
  | loginInvalid
  | serverError
deriving DecidableEq, Repr

/-- `voter_login`: fetch the latest election; if it is ongoing, look
the voter's vote up via `retrieve_vote_data` and render either the
receipt or the ballot form; if not ongoing but results are visible,
render the encryption-search page; else the invalid-login page.
(The source unwraps `retrieve_last_election`'s return as if it were a
raw response object — `response.data[0]` on an already-unwrapped
dictionary; the unwrap is modelled as using the returned row, and the
no-election marker branch — where the source would fault on
`last_election['ongoing']` — as a server error.) -/
def voter_login (cnic : String) (s : DBState) : LoginOutcome :=
  match retrieve_last_election s with
  | Sum.inl _ => .serverError
  | Sum.inr last_election =>
    if last_election.ongoing then
      match retrieve_vote_data cnic s.votes with
      | some vote_data => .receipt vote_data
      | none => .castVoteForm cnic
    else if last_election.results_visibility then .searchEncryptionsPage
    else .loginInvalid

/-- The form data of a `cast_vote` request. -/
structure CastArgs where
  cnic : String
  ballot_id : Int
  election_id : Int
  encryption : String
  hash_value : String
  random_factor : String
  timestamp : PyDatetime
deriving DecidableEq, Repr

/-- The store effect of the `cast_vote` handler: the insert performed
by `store_vote_data`, or no change when it rejects the timestamp. -/
def cast_vote_effect (a : CastArgs) (s : DBState) : DBState :=
  match store_vote_data a.cnic a.ballot_id a.election_id a.encryption
      a.hash_value a.random_factor a.timestamp s.votes with
  | .ok votes2 => { s with votes := votes2 }
  | .error _ => s

/-! ## The transition system -/

/-- One state-changing operation of the application. -/
inductive Step : DBState → DBState → Prop where
  | start (inp : StartInput) (s : DBState) : Step s (startElectionFlow inp s).2
  | endElec (s : DBState) : Step s (end_election s).2
  | setVis (election_id : Int) (st : Bool) (s : DBState) :
      Step s (update_result_visibility election_id st s).2
  | cast (a : CastArgs) (s : DBState) : Step s (cast_vote_effect a s)

/-- States reachable from the empty store through the application's
operations. -/
inductive Reachable : DBState → Prop where
  | base : Reachable initState
  | step {s s2 : DBState} : Reachable s → Step s s2 → Reachable s2

/-- At most one election row has `ongoing = true`. -/
def atMostOneOngoing (s : DBState) : Prop :=
  s.elections.countP (fun e => e.ongoing) ≤ 1

/-- A sequence of `startElection` calls. -/
def runStartFlows (inps : List StartInput) (s : DBState) : DBState :=
  inps.foldl (fun st inp => (startElectionFlow inp st).2) s

/-! ## Helper lemmas about the embedded operations -/

theorem Vote.getCol_CNIC (v : Vote) : v.getCol "CNIC" = none := rfl

theorem Vote.getCol_election_id_present (v : Vote) :
    v.getCol "election_id" = some (.int v.election_id) := rfl

theorem Election.getCol_id (e : Election) : e.getCol "id" = some (.int e.id) := rfl

theorem Election.getCol_election_id_absent (e : Election) :
    e.getCol "election_id" = none := rfl

theorem Election.getCol_results_visibility (e : Election) :
    e.getCol "results_visibility" = some (.bool e.results_visibility) := rfl

theorem mem_orderDescBy {α β : Type} [LinearOrder β] (key : α → β) (l : List α)
    (a : α) : a ∈ orderDescBy key l ↔ a ∈ l := by
  induction l with
  | nil => simp [orderDescBy]
  | cons x xs ih =>
    rw [show orderDescBy key (x :: xs) = insertDescBy key x (orderDescBy key xs) from rfl,
      mem_insertDescBy]
    simp [ih]

/-- `retrieve_vote_data` matches no vote row at all: it filters on the
column "CNIC", which no vote row carries (`store_vote_data` writes
"cnic"). -/
theorem retrieve_vote_data_eq_none (cnic : String) (votes : List Vote) :
    retrieve_vote_data cnic votes = none := by
  have h : votes.filter (fun v => decide (v.getCol "CNIC" = some (.str cnic))) = [] := by
    rw [List.filter_eq_nil_iff]
    intro v _
    simp [Vote.getCol_CNIC]
  rw [retrieve_vote_data, h]
  rfl

/-- `retrieve_election_data` matches no election row at all: it
filters on the column "election_id", which no election row carries
(elections are keyed "id"). -/
theorem retrieve_election_data_eq_none (election_id : Int) (s : DBState) :
    retrieve_election_data election_id s = none := by
  have h : s.elections.filter
      (fun e => decide (e.getCol "election_id" = some (.int election_id))) = [] := by
    rw [List.filter_eq_nil_iff]
    intro e _
    simp [Election.getCol_election_id_absent]
  rw [retrieve_election_data, h]
  rfl

/-- Consequently `update_result_visibility` always answers the error
outcome and leaves the store untouched. -/
theorem update_result_visibility_eq (election_id : Int) (st : Bool) (s : DBState) :
    update_result_visibility election_id st s =
      ({ status := VisStatus.error,
         message := "Election ID " ++ toString election_id ++ " not found" }, s) := by
  unfold update_result_visibility
  rw [retrieve_election_data_eq_none]

theorem cast_vote_effect_elections (a : CastArgs) (s : DBState) :
    (cast_vote_effect a s).elections = s.elections := by
  unfold cast_vote_effect
  split <;> rfl

/-- The election row `start_election` inserts. -/
def electionRow (inp : StartInput) (s : DBState) : Election :=
  { id := inp.election_id, num_candidates := Int.ofNat inp.fields.length,
    start_time := inp.start_time, end_time := inp.end_time,
    ongoing := true, results_visibility := false, encrypted_sum := none,
    combined_randomness := none, decrypted_tally := none,
    created_at := s.nextCreated }

/-- The candidate rows `start_election` inserts. -/
def candidateRows (inp : StartInput) : List Candidate :=
  (collectCandidates inp.fields).map (fun c =>
    { election_id := inp.election_id, name := c.name, cand_id := c.id,
      symbol := c.symbol })

/-- The state after `start_election`, whatever the reported outcome:
the election row and the kept candidate rows are appended. -/
theorem start_election_state (inp : StartInput) (s : DBState) :
    (start_election inp s).2 =
      { s with
        elections := s.elections ++ [electionRow inp s],
        candidates := s.candidates ++ candidateRows inp,
        nextCreated := s.nextCreated + 1 } := by
  simp only [start_election, store_election_data, store_candidate_data,
    electionRow, candidateRows]
  split <;> rfl

/-- `start_election` reports failure exactly when every candidate
entry was dropped (the empty candidate insert has empty data). -/
theorem start_election_outcome (inp : StartInput) (s : DBState) :
    (start_election inp s).1 =
      if collectCandidates inp.fields = [] then StartOutcome.failure
      else StartOutcome.success := by
  cases hc : collectCandidates inp.fields with
  | nil =>
    simp [start_election, store_election_data, store_candidate_data, hc]
  | cons c cs =>
    simp [start_election, store_election_data, store_candidate_data, hc]

theorem collectCandidates_cons (f : CandidateField) (fs : List CandidateField) :
    collectCandidates (f :: fs) =
      if pyTruthy f.candidate_name && pyTruthy f.candidate_symbol then
        { name := f.candidate_name.getD "", id := f.candidate_id,
          symbol := f.candidate_symbol.getD "" } :: collectCandidates fs
      else collectCandidates fs := rfl

/-- The candidate-collecting loop keeps exactly the entries whose name
and symbol are both present and non-empty, in order. -/
theorem collectCandidates_eq_filter_map (fields : List CandidateField) :
    collectCandidates fields =
      (fields.filter (fun f => pyTruthy f.candidate_name && pyTruthy f.candidate_symbol)).map
        (fun f => ({ name := f.candidate_name.getD "", id := f.candidate_id,
                     symbol := f.candidate_symbol.getD "" } : CandDict)) := by
  induction fields with
  | nil => rfl
  | cons f fs ih =>
    rw [collectCandidates_cons, List.filter_cons]
    by_cases h : (pyTruthy f.candidate_name && pyTruthy f.candidate_symbol) = true
    · simp only [h, if_true, List.map_cons, ih]
    · simp only [h, if_false, ih]
      simp [h]

/-! ## Concrete states used by witnesses and counterexamples -/

/-- A well-formed `start_election` form input with one valid candidate. -/
def inpW : StartInput :=
  { election_id := 1,
    fields := [{ candidate_name := some "A", candidate_id := some "1",
                 candidate_symbol := some "x" }],
    start_time := "2024-01-01T09:00", end_time := "2024-01-01T17:00" }

/-- The store after starting that election from the empty store. -/
def sOngoingW : DBState := (startElectionFlow inpW initState).2

/-- A cast-vote request without timezone information. -/
def castNoTz : CastArgs :=
  { cnic := "12345", ballot_id := 1, election_id := 1, encryption := "enc",
    hash_value := "h", random_factor := "r",
    timestamp := { tzinfo := none, iso := "2024-01-01T00:00:00" } }

/-- A cast-vote request with a timezone-aware timestamp, for the
election of `sOngoingW`. -/
def castTz : CastArgs :=
  { cnic := "12345", ballot_id := 1, election_id := 1, encryption := "enc",
    hash_value := "h", random_factor := "r",
    timestamp := { tzinfo := some "UTC", iso := "2024-01-01T00:00:00+00:00" } }

/-- The vote row `store_vote_data` writes for `castTz`. -/
def voteStored : Vote :=
  { cnic := "12345", ballot_id := 1, election_id := 1, encrypted_vote := "enc",
    vote_hash := "h", randomness := "r", time := "2024-01-01T00:00:00+00:00" }

/-- The store after additionally casting that vote. -/
def sVotedW : DBState := cast_vote_effect castTz sOngoingW

/-! ## The claims -/

/-- C1: a `startElection` call made while some election has
`ongoing = true` fails at the `election_setup` conflict check (HTTP
403, "An election is already ongoing!") and changes nothing, and over
every sequence of such calls the store keeps at most one election row
with `ongoing = true` (each passing call starts from a store with no
ongoing election and appends exactly one ongoing row). -/
theorem startElection_conflict_and_at_most_one_ongoing :
    (∀ (s : DBState) (inp : StartInput),
        s.elections.any (fun e => e.ongoing) = true →
          startElectionFlow inp s = (StartOutcome.conflict, s))
    ∧ (∀ (inps : List StartInput) (s : DBState),
        atMostOneOngoing s → atMostOneOngoing (runStartFlows inps s)) := by
  constructor
  · intro s inp h
    simp [startElectionFlow, election_setup, h]
  · intro inps
    induction inps with
    | nil =>
      intro s h
      simpa [runStartFlows] using h
    | cons i is ih =>
      intro s h
      have hstep : atMostOneOngoing (startElectionFlow i s).2 := by
        by_cases hany : s.elections.any (fun e => e.ongoing) = true
        · have hflow : startElectionFlow i s = (StartOutcome.conflict, s) := by
            simp [startElectionFlow, election_setup, hany]
          rw [hflow]
          exact h
        · have hb : s.elections.any (fun e => e.ongoing) = false := by
            simpa using hany
          have h0 : s.elections.countP (fun e => e.ongoing) = 0 :=
            List.countP_eq_zero.mpr (List.any_eq_false.mp hb)
          have hflow : (startElectionFlow i s).2 = (start_election i s).2 := by
            simp [startElectionFlow, election_setup, hb]
          rw [hflow, start_election_state]
          unfold atMostOneOngoing
          simp [List.countP_append, h0, List.countP_cons, electionRow]
      have hrun : runStartFlows (i :: is) s = runStartFlows is (startElectionFlow i s).2 := rfl
      rw [hrun]
      exact ih _ hstep

/-- Witness for C1: after one successful start the store has an
ongoing election, a second call then answers the conflict and leaves
the store unchanged; and the at-most-one-ongoing bound holds along a
concrete two-call sequence from the empty store. -/
theorem startElection_conflict_and_at_most_one_ongoing_witness :
    sOngoingW.elections.any (fun e => e.ongoing) = true
    ∧ startElectionFlow inpW sOngoingW = (StartOutcome.conflict, sOngoingW)
    ∧ atMostOneOngoing initState
    ∧ atMostOneOngoing (runStartFlows [inpW, inpW] initState) :=
  ⟨by decide,
   startElection_conflict_and_at_most_one_ongoing.1 sOngoingW inpW (by decide),
   by unfold atMostOneOngoing; decide,
   startElection_conflict_and_at_most_one_ongoing.2 [inpW, inpW] initState
     (by unfold atMostOneOngoing; decide)⟩

/-- C3: `store_vote_data` with a timestamp carrying no timezone
information fails with the `ValueError` ("vote_time must include
timezone information.") and inserts nothing, and with a
timezone-aware timestamp it inserts exactly the vote row. -/
theorem cast_vote_timezone_validation (a : CastArgs) (s : DBState) :
    (a.timestamp.tzinfo = none →
      store_vote_data a.cnic a.ballot_id a.election_id a.encryption a.hash_value
          a.random_factor a.timestamp s.votes =
        Except.error "vote_time must include timezone information."
      ∧ cast_vote_effect a s = s)
    ∧ (∀ u : String, a.timestamp.tzinfo = some u →
        store_vote_data a.cnic a.ballot_id a.election_id a.encryption a.hash_value
            a.random_factor a.timestamp s.votes =
          Except.ok (s.votes ++
            [{ cnic := a.cnic, ballot_id := a.ballot_id, election_id := a.election_id,
               encrypted_vote := a.encryption, vote_hash := a.hash_value,
               randomness := a.random_factor, time := a.timestamp.iso }])
        ∧ cast_vote_effect a s =
            { s with votes := s.votes ++
                [{ cnic := a.cnic, ballot_id := a.ballot_id, election_id := a.election_id,
                   encrypted_vote := a.encryption, vote_hash := a.hash_value,
                   randomness := a.random_factor, time := a.timestamp.iso }] }) := by
  constructor
  · intro h
    constructor
    · simp [store_vote_data, h]
    · simp [cast_vote_effect, store_vote_data, h]
  · intro u h
    constructor
    · simp [store_vote_data, h, PyDatetime.isoformat]
    · simp [cast_vote_effect, store_vote_data, h, PyDatetime.isoformat]

/-- Witness for C3 at two concrete requests: one timezone-naive (the
insert is refused, the store unchanged), one timezone-aware (the row
is appended). -/
theorem cast_vote_timezone_validation_witness :
    (store_vote_data castNoTz.cnic castNoTz.ballot_id castNoTz.election_id
        castNoTz.encryption castNoTz.hash_value castNoTz.random_factor
        castNoTz.timestamp initState.votes =
      Except.error "vote_time must include timezone information."
      ∧ cast_vote_effect castNoTz initState = initState)
    ∧ (store_vote_data castTz.cnic castTz.ballot_id castTz.election_id
          castTz.encryption castTz.hash_value castTz.random_factor
          castTz.timestamp initState.votes =
        Except.ok (initState.votes ++
          [{ cnic := castTz.cnic, ballot_id := castTz.ballot_id,
             election_id := castTz.election_id, encrypted_vote := castTz.encryption,
             vote_hash := castTz.hash_value, randomness := castTz.random_factor,
             time := castTz.timestamp.iso }])
        ∧ cast_vote_effect castTz initState =
            { initState with votes := initState.votes ++
                [{ cnic := castTz.cnic, ballot_id := castTz.ballot_id,
                   election_id := castTz.election_id, encrypted_vote := castTz.encryption,
                   vote_hash := castTz.hash_value, randomness := castTz.random_factor,
                   time := castTz.timestamp.iso }] }) :=
  ⟨(cast_vote_timezone_validation castNoTz initState).1 rfl,
   (cast_vote_timezone_validation castTz initState).2 "UTC" rfl⟩

/-- C4 (bug evidence): `update_result_visibility` returns the error
outcome for every election id, every unused `status` argument and
every store state — including a store holding an election with that id
and `ongoing = false`, where the claim expects success and a
visibility update — and it never mutates the store, because
`retrieve_election_data` filters the elections table on a column
"election_id" that election rows (keyed "id") do not carry.  In
particular it never returns the skipped outcome either. -/
theorem update_result_visibility_always_error (election_id : Int) (st : Bool)
    (s : DBState) :
    (update_result_visibility election_id st s).1.status = VisStatus.error
    ∧ (update_result_visibility election_id st s).2 = s := by
  rw [update_result_visibility_eq]
  exact ⟨rfl, rfl⟩

/-- C6 (bug evidence): after `store_vote_data` inserts the row for
cnic "12345", `retrieve_vote_data` for the same cnic still answers
absent: the lookup filters on the column "CNIC" while the row is keyed
"cnic", and the lookup takes no election id at all, so its answer
cannot depend on the election. -/
theorem hasVoted_misses_stored_vote :
    store_vote_data "12345" 1 1 "enc" "h" "r"
        { tzinfo := some "UTC", iso := "2024-01-01T00:00:00+00:00" } [] =
      Except.ok [voteStored]
    ∧ retrieve_vote_data "12345" [voteStored] = none :=
  ⟨rfl, retrieve_vote_data_eq_none "12345" [voteStored]⟩

/-- A closed election with the smaller id, created first. -/
def eA : Election :=
  { id := 1, num_candidates := 1, start_time := "09:00", end_time := "17:00",
    ongoing := false, results_visibility := false, encrypted_sum := none,
    combined_randomness := none, decrypted_tally := none, created_at := 0 }

/-- An ongoing election with the greater id, created second. -/
def eB : Election :=
  { id := 2, num_candidates := 1, start_time := "09:00", end_time := "17:00",
    ongoing := true, results_visibility := false, encrypted_sum := none,
    combined_randomness := none, decrypted_tally := none, created_at := 1 }

/-- A store holding the two elections above. -/
def sTwoW : DBState :=
  { elections := [eA, eB], candidates := [], votes := [], nextCreated := 2 }

/-- C5: `end_election` on an empty election set returns the
"No elections found" error outcome and changes nothing; on a
non-empty set the id-descending order has a first element `m`, which
is an election of maximal id, and exactly the rows carrying that id
get `ongoing := false` while every other row is left unchanged; under
distinct ids (`id` is unique per the data model) `m` is the only such
row. -/
theorem end_election_spec (s : DBState) (m : Election) :
    (s.elections = [] → end_election s = (EndElectionResult.errorNoElections, s))
    ∧ (s.elections ≠ [] →
        ((orderDescBy (fun e => e.id) s.elections).head?).isSome = true)
    ∧ ((orderDescBy (fun e => e.id) s.elections).head? = some m →
        m ∈ s.elections
        ∧ (∀ e ∈ s.elections, e.id ≤ m.id)
        ∧ end_election s =
            (EndElectionResult.updated,
              { s with elections := s.elections.map (fun e =>
                  if e.id = m.id then { e with ongoing := false } else e) })
        ∧ ((s.elections.map (fun e => e.id)).Nodup →
            ∀ e ∈ s.elections, e.id = m.id → e = m)) := by
  refine ⟨?_, ?_, ?_⟩
  · intro h
    simp [end_election, h, orderDescBy]
  · intro h
    obtain ⟨m2, hm2, _, _⟩ := orderDescBy_head_max (fun e => e.id) s.elections h
    simp [hm2]
  · intro hm
    have hmem : m ∈ s.elections := by
      have h1 : m ∈ orderDescBy (fun e => e.id) s.elections :=
        List.mem_of_mem_head? (Option.mem_def.mpr hm)
      exact (mem_orderDescBy _ _ _).mp h1
    have hne : s.elections ≠ [] := by
      intro hnil
      rw [hnil] at hm
      simp [orderDescBy] at hm
    have hmax : ∀ e ∈ s.elections, e.id ≤ m.id := by
      obtain ⟨m2, hm2, _, hmax2⟩ := orderDescBy_head_max (fun e => e.id) s.elections hne
      have : m2 = m := by
        have h2 : some m2 = some m := hm2.symm.trans hm
        injection h2
      subst this
      exact hmax2
    refine ⟨hmem, hmax, ?_, ?_⟩
    · have hfun : (fun e : Election =>
          if e.getCol "id" = some (Value.int m.id) then { e with ongoing := false } else e)
          = (fun e : Election => if e.id = m.id then { e with ongoing := false } else e) := by
        funext e
        rw [Election.getCol_id]
        by_cases h : e.id = m.id
        · simp [h]
        · simp [h]
      simp only [end_election, hm, hfun]
    · intro hnodup e he hid
      exact List.inj_on_of_nodup_map hnodup he hmem hid

/-- Witness for C5: the empty store answers the error outcome; on a
concrete two-election store the greater id is selected, only that row
is closed, and with the distinct ids it is the unique such row. -/
theorem end_election_spec_witness :
    end_election initState = (EndElectionResult.errorNoElections, initState)
    ∧ ((orderDescBy (fun e => e.id) sTwoW.elections).head?).isSome = true
    ∧ (eB ∈ sTwoW.elections
       ∧ (∀ e ∈ sTwoW.elections, e.id ≤ eB.id)
       ∧ end_election sTwoW =
           (EndElectionResult.updated,
             { sTwoW with elections := sTwoW.elections.map (fun e =>
                 if e.id = eB.id then { e with ongoing := false } else e) })
       ∧ ((sTwoW.elections.map (fun e => e.id)).Nodup →
           ∀ e ∈ sTwoW.elections, e.id = eB.id → e = eB)) :=
  ⟨(end_election_spec initState eB).1 rfl,
   (end_election_spec sTwoW eB).2.1 (by decide),
   (end_election_spec sTwoW eB).2.2 (by decide)⟩

/-- C9: `retrieve_last_election` on an empty election set returns the
explicit error dictionary `{status: "error", message: "No elections
found"}` — a value of the marker shape, distinguishable from any
election row — and on a non-empty set the created-at-descending order
has a first element `m`, an election of maximal `created_at`, which is
returned as data. -/
theorem retrieve_last_election_spec (s : DBState) (m : Election) :
    (s.elections = [] →
      retrieve_last_election s =
        Sum.inl { status := "error", message := "No elections found" })
    ∧ (s.elections ≠ [] →
        ((orderDescBy (fun e => e.created_at) s.elections).head?).isSome = true)
    ∧ ((orderDescBy (fun e => e.created_at) s.elections).head? = some m →
        retrieve_last_election s = Sum.inr m
        ∧ m ∈ s.elections
        ∧ ∀ e ∈ s.elections, e.created_at ≤ m.created_at) := by
  refine ⟨?_, ?_, ?_⟩
  · intro h
    simp [retrieve_last_election, h, orderDescBy]
  · intro h
    obtain ⟨m2, hm2, _, _⟩ := orderDescBy_head_max (fun e => e.created_at) s.elections h
    simp [hm2]
  · intro hm
    have hmem : m ∈ s.elections := by
      have h1 : m ∈ orderDescBy (fun e => e.created_at) s.elections :=
        List.mem_of_mem_head? (Option.mem_def.mpr hm)
      exact (mem_orderDescBy _ _ _).mp h1
    have hne : s.elections ≠ [] := by
      intro hnil
      rw [hnil] at hm
      simp [orderDescBy] at hm
    have hmax : ∀ e ∈ s.elections, e.created_at ≤ m.created_at := by
      obtain ⟨m2, hm2, _, hmax2⟩ := orderDescBy_head_max (fun e => e.created_at) s.elections hne
      have : m2 = m := by
        have h2 : some m2 = some m := hm2.symm.trans hm
        injection h2
      subst this
      exact hmax2
    refine ⟨?_, hmem, hmax⟩
    simp only [retrieve_last_election, hm]

/-- Witness for C9: the empty store yields the explicit marker; on the
two-election store the election created last is returned. -/
theorem retrieve_last_election_spec_witness :
    retrieve_last_election initState =
      Sum.inl { status := "error", message := "No elections found" }
    ∧ ((orderDescBy (fun e => e.created_at) sTwoW.elections).head?).isSome = true
    ∧ (retrieve_last_election sTwoW = Sum.inr eB
       ∧ eB ∈ sTwoW.elections
       ∧ ∀ e ∈ sTwoW.elections, e.created_at ≤ eB.created_at) :=
  ⟨(retrieve_last_election_spec initState eB).1 rfl,
   (retrieve_last_election_spec sTwoW eB).2.1 (by decide),
   (retrieve_last_election_spec sTwoW eB).2.2 (by decide)⟩

/-- C2 (bug evidence): in a state reached from the empty store by
starting an election and casting a vote for cnic "12345" in it, the
latest election is ongoing and a vote row for the pair ("12345", 1)
exists, yet `voter_login` offers the ballot form again instead of the
receipt — the duplicate-vote guard never fires because
`retrieve_vote_data` filters on the column "CNIC" while votes are
stored under "cnic" — and a second cast for the same pair goes
through, leaving two vote rows for the pair in a reachable state. -/
theorem voter_login_reoffers_ballot :
    Reachable sVotedW
    ∧ sVotedW.votes.countP (fun v => v.cnic == "12345" && v.election_id == 1) = 1
    ∧ sVotedW.elections.any (fun e => e.id == 1 && e.ongoing) = true
    ∧ voter_login "12345" sVotedW = LoginOutcome.castVoteForm "12345"
    ∧ Reachable (cast_vote_effect castTz sVotedW)
    ∧ (cast_vote_effect castTz sVotedW).votes.countP
        (fun v => v.cnic == "12345" && v.election_id == 1) = 2 :=
  ⟨Reachable.step (Reachable.step Reachable.base (Step.start inpW initState))
     (Step.cast castTz sOngoingW),
   by decide, by decide, by decide,
   Reachable.step
     (Reachable.step (Reachable.step Reachable.base (Step.start inpW initState))
       (Step.cast castTz sOngoingW))
     (Step.cast castTz sVotedW),
   by decide⟩

/-- C7: on a successful `startElection`, exactly one election row is
appended — `ongoing = true`, `results_visibility = false`, the three
tally fields null — and one candidate row per input entry whose name
and symbol are both present and non-empty; every other entry produces
no candidate row; the votes table is untouched. -/
theorem start_election_success_rows (inp : StartInput) (s s2 : DBState)
    (h : startElectionFlow inp s = (StartOutcome.success, s2)) :
    s2.elections = s.elections ++ [electionRow inp s]
    ∧ (electionRow inp s).ongoing = true
    ∧ (electionRow inp s).results_visibility = false
    ∧ (electionRow inp s).encrypted_sum = none
    ∧ (electionRow inp s).combined_randomness = none
    ∧ (electionRow inp s).decrypted_tally = none
    ∧ s2.candidates = s.candidates ++
        (inp.fields.filter
            (fun f => pyTruthy f.candidate_name && pyTruthy f.candidate_symbol)).map
          (fun f => ({ election_id := inp.election_id,
                       name := f.candidate_name.getD "",
                       cand_id := f.candidate_id,
                       symbol := f.candidate_symbol.getD "" } : Candidate))
    ∧ s2.votes = s.votes := by
  have hs2 : s2 = (start_election inp s).2 := by
    cases hsetup : election_setup s with
    | conflict => simp [startElectionFlow, hsetup] at h
    | setupForm =>
      simp only [startElectionFlow, hsetup] at h
      exact (congrArg Prod.snd h).symm
  rw [hs2, start_election_state]
  refine ⟨rfl, rfl, rfl, rfl, rfl, rfl, ?_, rfl⟩
  show s.candidates ++ candidateRows inp = _
  rw [candidateRows, collectCandidates_eq_filter_map, List.map_map]
  rfl

/-- Witness for C7: the concrete successful start from the empty
store inserts exactly the expected election row and the one valid
candidate row. -/
theorem start_election_success_rows_witness :
    sOngoingW.elections = initState.elections ++ [electionRow inpW initState]
    ∧ (electionRow inpW initState).ongoing = true
    ∧ (electionRow inpW initState).results_visibility = false
    ∧ (electionRow inpW initState).encrypted_sum = none
    ∧ (electionRow inpW initState).combined_randomness = none
    ∧ (electionRow inpW initState).decrypted_tally = none
    ∧ sOngoingW.candidates = initState.candidates ++
        (inpW.fields.filter
            (fun f => pyTruthy f.candidate_name && pyTruthy f.candidate_symbol)).map
          (fun f => ({ election_id := inpW.election_id,
                       name := f.candidate_name.getD "",
                       cand_id := f.candidate_id,
                       symbol := f.candidate_symbol.getD "" } : Candidate))
    ∧ sOngoingW.votes = initState.votes :=
  start_election_success_rows inpW initState sOngoingW rfl

/-- The two possible store effects of `end_election`: no change (empty
table), or the `ongoing := false` update on rows matching the maximal
id. -/
theorem end_election_state (s : DBState) :
    (end_election s).2 = s
    ∨ ∃ m, (orderDescBy (fun e => e.id) s.elections).head? = some m
        ∧ (end_election s).2 = { s with elections := s.elections.map (fun e =>
            if e.getCol "id" = some (Value.int m.id)
            then { e with ongoing := false } else e) } := by
  cases hh : (orderDescBy (fun e => e.id) s.elections).head? with
  | none =>
    left
    simp [end_election, hh]
  | some m =>
    right
    exact ⟨m, rfl, by simp [end_election, hh]⟩

/-- No operation makes any election row's `results_visibility` true:
the only writer, `update_result_visibility`, never finds its election
(see `update_result_visibility_eq`). -/
theorem rv_false_step {s s2 : DBState} (hstep : Step s s2)
    (h : ∀ e ∈ s.elections, e.results_visibility = false) :
    ∀ e ∈ s2.elections, e.results_visibility = false := by
  cases hstep with
  | start inp s =>
    intro e he
    by_cases hany : s.elections.any (fun x => x.ongoing) = true
    · have hflow : startElectionFlow inp s = (StartOutcome.conflict, s) := by
        simp [startElectionFlow, election_setup, hany]
      rw [hflow] at he
      exact h e he
    · have hb : s.elections.any (fun x => x.ongoing) = false := by simpa using hany
      have hflow : (startElectionFlow inp s).2 = (start_election inp s).2 := by
        simp [startElectionFlow, election_setup, hb]
      rw [hflow, start_election_state] at he
      change e ∈ s.elections ++ [electionRow inp s] at he
      rcases List.mem_append.mp he with h1 | h1
      · exact h e h1
      · rw [List.mem_singleton] at h1
        subst h1
        rfl
  | endElec s =>
    intro e he
    rcases end_election_state s with hst | ⟨m, _, hst⟩
    · rw [hst] at he
      exact h e he
    · rw [hst] at he
      change e ∈ s.elections.map _ at he
      rcases List.mem_map.mp he with ⟨x, hx, rfl⟩
      by_cases hid : x.getCol "id" = some (Value.int m.id)
      · simp only [if_pos hid]
        exact h x hx
      · simp only [if_neg hid]
        exact h x hx
  | setVis eid st s =>
    intro e he
    rw [show (update_result_visibility eid st s).2 = s from
      congrArg Prod.snd (update_result_visibility_eq eid st s)] at he
    exact h e he
  | cast a s =>
    intro e he
    rw [cast_vote_effect_elections] at he
    exact h e he

/-- C8: in every reachable store no election row has
`results_visibility = true` (a consequence of the broken visibility
update, see `update_result_visibility_eq`), and structurally the
encrypted-vote search only ever returns an election whose
`results_visibility` column is true, together with exactly that
election's vote rows.  Jointly: in a reachable store the search
exposes no votes at all, so in particular it never exposes votes of an
election whose `ongoing` flag is still true. -/
theorem search_encryptions_visibility_gate :
    (∀ s : DBState, Reachable s → ∀ e ∈ s.elections, e.results_visibility = false)
    ∧ (∀ (s : DBState) (e : Election) (vs : List Vote),
        search_encryptions s = some (e, vs) →
          e ∈ s.elections ∧ e.results_visibility = true
          ∧ vs = get_votes_by_election e.id s) := by
  constructor
  · intro s hs
    induction hs with
    | base =>
      intro e he
      simp [initState] at he
    | step hr hstep ih => exact rv_false_step hstep ih
  · intro s e vs h
    unfold search_encryptions at h
    cases hv : get_visible_election s with
    | none =>
      rw [hv] at h
      simp at h
    | some ve =>
      rw [hv] at h
      simp only [Option.some.injEq, Prod.mk.injEq] at h
      obtain ⟨he, hvs⟩ := h
      subst he
      have hv2 : (s.elections.filter
          (fun x => decide (x.getCol "results_visibility" = some (Value.bool true)))).head?
          = some ve := by
        rw [get_visible_election] at hv
        exact hv
      have hvm := List.mem_of_mem_head? (Option.mem_def.mpr hv2)
      obtain ⟨hmem, hpred⟩ := List.mem_filter.mp hvm
      refine ⟨hmem, ?_, hvs.symm⟩
      simpa [Election.getCol_results_visibility] using hpred

/-- An election with published results, for exercising the structural
part of the search gate. -/
def eVisW : Election :=
  { id := 5, num_candidates := 1, start_time := "09:00", end_time := "17:00",
    ongoing := false, results_visibility := true, encrypted_sum := none,
    combined_randomness := none, decrypted_tally := none, created_at := 0 }

/-- A store holding only that election. -/
def sVisW : DBState :=
  { elections := [eVisW], candidates := [], votes := [], nextCreated := 1 }

/-- Witness for C8: the invariant instantiated at the concrete
reachable store after one started election, and the structural gate at
a concrete store with a visible election. -/
theorem search_encryptions_visibility_gate_witness :
    (electionRow inpW initState).results_visibility = false
    ∧ (eVisW ∈ sVisW.elections ∧ eVisW.results_visibility = true
       ∧ [] = get_votes_by_election eVisW.id sVisW) :=
  ⟨search_encryptions_visibility_gate.1 sOngoingW
     (Reachable.step Reachable.base (Step.start inpW initState))
     (electionRow inpW initState) (by decide),
   search_encryptions_visibility_gate.2 sVisW eVisW [] (by decide)⟩

/-- C10: over every single operation of the application, an election
row that is closed (`ongoing = false`) stays closed and a row with
published results (`results_visibility = true`) keeps them published:
new rows are only appended (start flow), `end_election` only writes
`ongoing := false`, the visibility update never reverts anything (it
never fires at all, see `update_result_visibility_eq`), and vote
casting leaves elections alone. -/
theorem step_never_reopens_or_unpublishes :
    ∀ (s s2 : DBState), Step s s2 → ∀ (i : Nat) (e e2 : Election),
      s.elections[i]? = some e → s2.elections[i]? = some e2 →
        (e.ongoing = false → e2.ongoing = false)
        ∧ (e.results_visibility = true → e2.results_visibility = true) := by
  intro s s2 hstep i e e2 h1 h2
  cases hstep with
  | start inp s =>
    by_cases hany : s.elections.any (fun x => x.ongoing) = true
    · have hflow : startElectionFlow inp s = (StartOutcome.conflict, s) := by
        simp [startElectionFlow, election_setup, hany]
      have h2' : s.elections[i]? = some e2 := by
        rw [hflow] at h2
        exact h2
      rw [h1] at h2'
      injection h2' with h2'
      subst h2'
      exact ⟨fun h => h, fun h => h⟩
    · have hb : s.elections.any (fun x => x.ongoing) = false := by simpa using hany
      have hflow : (startElectionFlow inp s).2 = (start_election inp s).2 := by
        simp [startElectionFlow, election_setup, hb]
      have h2' : (s.elections ++ [electionRow inp s])[i]? = some e2 := by
        rw [hflow, start_election_state] at h2
        exact h2
      have hi : i < s.elections.length := by
        by_contra hlt
        push_neg at hlt
        rw [List.getElem?_eq_none hlt] at h1
        simp at h1
      rw [List.getElem?_append, if_pos hi, h1] at h2'
      injection h2' with h2'
      subst h2'
      exact ⟨fun h => h, fun h => h⟩
  | endElec s =>
    rcases end_election_state s with hst | ⟨m, _, hst⟩
    · have h2' : s.elections[i]? = some e2 := by
        rw [hst] at h2
        exact h2
      rw [h1] at h2'
      injection h2' with h2'
      subst h2'
      exact ⟨fun h => h, fun h => h⟩
    · have h2' : (s.elections.map (fun x =>
          if x.getCol "id" = some (Value.int m.id)
          then { x with ongoing := false } else x))[i]? = some e2 := by
        rw [hst] at h2
        exact h2
      rw [List.getElem?_map, h1] at h2'
      simp only [Option.map_some'] at h2'
      injection h2' with h2'
      subst h2'
      by_cases hid : e.getCol "id" = some (Value.int m.id)
      · constructor
        · intro _
          simp [if_pos hid]
        · intro h
          simpa [if_pos hid] using h
      · constructor
        · intro h
          simpa [if_neg hid] using h
        · intro h
          simpa [if_neg hid] using h
  | setVis eid st s =>
    have h2' : s.elections[i]? = some e2 := by
      rw [show (update_result_visibility eid st s).2 = s from
        congrArg Prod.snd (update_result_visibility_eq eid st s)] at h2
      exact h2
    rw [h1] at h2'
    injection h2' with h2'
    subst h2'
    exact ⟨fun h => h, fun h => h⟩
  | cast a s =>
    have h2' : s.elections[i]? = some e2 := by
      rw [cast_vote_effect_elections] at h2
      exact h2
    rw [h1] at h2'
    injection h2' with h2'
    subst h2'
    exact ⟨fun h => h, fun h => h⟩

/-- Witness for C10: a concrete `end_election` step on a store whose
election is already closed with published results; the row stays
closed and published. -/
theorem step_never_reopens_or_unpublishes_witness :
    (eVisW.ongoing = false →
      ({ eVisW with ongoing := false } : Election).ongoing = false)
    ∧ (eVisW.results_visibility = true →
      ({ eVisW with ongoing := false } : Election).results_visibility = true) :=
  step_never_reopens_or_unpublishes sVisW (end_election sVisW).2 (Step.endElec sVisW) 0
    eVisW { eVisW with ongoing := false } (by decide) (by decide)
